import Mathlib

/-!
Verification of the CS2 market-tracking price core.

This file is a shallow embedding, in Lean 4, of the pure logic of the
repository under review:

* the price service (getSkinPrice, formatPrice) from the price-service module;
* the price-history service (savePriceSnapshot, calculatePriceChange);
* the API service (determineCategory, processTrendingListings, filterByCategory).

JavaScript values are modelled as follows: JS numbers used as exact
prices/timestamps are rationals or integers; the scores computed with the
transcendental Math.log in the trending processor are real numbers; JS
strings are Lean strings; nullable values are Option; objects used as string
keyed dictionaries are association lists in key-insertion order (the order
Object.keys reports).  Math.random() draws are passed in as explicit inputs,
making the nondeterminism of the source explicit.  JS Array.prototype.sort
with a consistent comparator is modelled by a stable insertion sort, which
produces the unique stable order the ECMAScript specification requires.
-/

namespace CS2Market

/-! ## String helpers mirroring the JavaScript string primitives -/

/-- JS String.prototype.startsWith. -/
def strStartsWith (s pre : String) : Bool :=
  pre.data.isPrefixOf s.data

/-- Helper for substring search over character lists. -/
def containsAux (pat : List Char) : List Char → Bool
  | [] => pat.isEmpty
  | c :: rest => pat.isPrefixOf (c :: rest) || containsAux pat rest

/-- JS String.prototype.includes: substring containment. -/
def strContains (s pat : String) : Bool :=
  containsAux pat.data s.data

/-- JS String.prototype.endsWith. -/
def strEndsWith (s suf : String) : Bool :=
  suf.data.isSuffixOf s.data

/-- JS String.prototype.toLowerCase (ASCII range, which covers every
keyword the source compares against). -/
def strToLower (s : String) : String :=
  String.mk (s.data.map Char.toLower)

/-- JS String.prototype.trim. -/
def strTrim (s : String) : String :=
  String.mk (((s.data.dropWhile Char.isWhitespace).reverse.dropWhile
    Char.isWhitespace).reverse)

/-- Helper for splitting a character list at a separator character. -/
def splitAux (sep : Char) : List Char → List Char → List String
  | [], acc => [String.mk acc.reverse]
  | c :: rest, acc =>
    if c = sep then String.mk acc.reverse :: splitAux sep rest []
    else splitAux sep rest (c :: acc)

/-- JS String.prototype.split with a one-character separator. -/
def strSplitOn (s : String) (sep : Char) : List String :=
  splitAux sep s.data []

/-! ## JS truthiness helpers -/

/-- JS `a || b` where a is a possibly-missing number: undefined, null and 0
are falsy. -/
def jsOrQ (a : Option ℚ) (b : ℚ) : ℚ :=
  match a with
  | none => b
  | some x => if x = 0 then b else x

/-- JS `a || b` where a is a possibly-missing string: undefined, null and
the empty string are falsy. -/
def jsOrStr (a : Option String) (b : String) : String :=
  match a with
  | none => b
  | some s => if s = "" then b else s

/-- JS `s || null` on a possibly-missing string: the empty string
collapses to null. -/
def jsOrStrOpt (a : Option String) : Option String :=
  match a with
  | none => none
  | some s => if s = "" then none else some s

/-! ## Price service: data model

PriceEntry is one value of the price map handed to getSkinPrice (the shape
built by fetchPriceData: price, min, avg, max in dollars plus qty); each
numeric field may be absent since getSkinPrice reads them defensively with
`||` chains.  PriceMap is the price dictionary in key-insertion order. -/

structure PriceEntry where
  price : Option ℚ
  min : Option ℚ
  avg : Option ℚ
  max : Option ℚ
  qty : Option ℕ
deriving DecidableEq

/-- The price dictionary keyed by market hash name, in insertion order. -/
def PriceMap := List (String × PriceEntry)
deriving DecidableEq

/-- The result object of getSkinPrice. -/
structure PriceQuote where
  avg : ℚ
  min : ℚ
  max : ℚ
  currency : String
  marketHashName : String
  isApproximate : Bool
deriving DecidableEq

/-- Builds the result object getSkinPrice returns for an entry found under
key mhn: each of avg/min/max falls back through the JS chain
field || price || 0. -/
def mkQuote (e : PriceEntry) (mhn : String) (approx : Bool) : PriceQuote :=
  { avg := jsOrQ e.avg (jsOrQ e.price 0)
    min := jsOrQ e.min (jsOrQ e.price 0)
    max := jsOrQ e.max (jsOrQ e.price 0)
    currency := "USD"
    marketHashName := mhn
    isApproximate := approx }

/-- Steam market-hash-name construction from getSkinPrice: StatTrak prefix
wins over Souvenir; the wear, when given, is appended in parentheses. -/
def buildMarketHashName (name : String) (wear : Option String)
    (stattrak souvenir : Bool) : String :=
  let n1 := if stattrak then "StatTrak™ " ++ name
            else if souvenir then "Souvenir " ++ name
            else name
  match wear with
  | some w => n1 ++ " (" ++ w ++ ")"
  | none => n1

/-- The five wear conditions getSkinPrice retries, in source order. -/
def commonWears : List String :=
  ["Field-Tested", "Minimal Wear", "Factory New", "Well-Worn", "Battle-Scarred"]

/-- Whether a price-map key agrees with the requested StatTrak-ness:
key.includes("StatTrak™") when requested, its negation otherwise. -/
def matchesStatTrak (stattrak : Bool) (key : String) : Bool :=
  if stattrak then strContains key "StatTrak™"
  else !(strContains key "StatTrak™")

/-- STRATEGY 1 of the knife/glove fallback in getSkinPrice: search the key
set for the same base weapon (and pattern, when the name has one), the
requested wear when one was given, and the requested StatTrak-ness. -/
def fallbackStrategy1 (keys : List String) (skinName : String)
    (wear : Option String) (stattrak : Bool) : Option String :=
  let baseWeapon := strTrim ((strSplitOn skinName '|').headD "")
  let hasPattern := strContains skinName "|"
  let pattern := if hasPattern then strTrim ((strSplitOn skinName '|').getD 1 "")
                 else ""
  if hasPattern && !(pattern == "") then
    let baseWithPattern := baseWeapon ++ " | " ++ pattern
    match wear with
    | some w =>
      keys.find? (fun key =>
        strStartsWith key baseWithPattern &&
        strContains key ("(" ++ w ++ ")") &&
        matchesStatTrak stattrak key)
    | none =>
      keys.find? (fun key =>
        strStartsWith key baseWithPattern &&
        matchesStatTrak stattrak key)
  else
    match wear with
    | some w =>
      keys.find? (fun key =>
        strStartsWith key baseWeapon &&
        !(strContains key "|") &&
        strContains key ("(" ++ w ++ ")") &&
        matchesStatTrak stattrak key)
    | none =>
      keys.find? (fun key =>
        strStartsWith key baseWeapon &&
        !(strContains key "|") &&
        matchesStatTrak stattrak key)

/-- The whole knife/glove fallback key search of getSkinPrice: STRATEGY 1
with the requested StatTrak-ness; if that fails and StatTrak was requested,
STRATEGY 2 repeats the search demanding a non-StatTrak key. -/
def fallbackSearch (keys : List String) (skinName : String)
    (wear : Option String) (stattrak : Bool) : Option String :=
  match fallbackStrategy1 keys skinName wear stattrak with
  | some k => some k
  | none =>
    if stattrak then fallbackStrategy1 keys skinName wear false
    else none

/-- getSkinPrice specialised to a present price map and a given wear: exact
lookup of the constructed identifier, then — for names carrying the ★
marker — the fallback key search with that wear.  This is exactly what the
recursive call getSkinPrice(priceData, skinName, wearCondition, ...) inside
the wear-retry loop computes, since that call always has a wear. -/
def getSkinPriceWithWear (pm : List (String × PriceEntry)) (skinName w : String)
    (stattrak souvenir : Bool) : Option PriceQuote :=
  let mhn := buildMarketHashName skinName (some w) stattrak souvenir
  match List.lookup mhn pm with
  | some e => some (mkQuote e mhn false)
  | none =>
    if strContains skinName "★" then
      match fallbackSearch (pm.map Prod.fst) skinName (some w) stattrak with
      | some k => (List.lookup k pm).map (fun e => mkQuote e k true)
      | none => none
    else none

/-- getSkinPrice from the price service.  A missing price map or an empty
skin name short-circuits to none.  With a wear the resolution is
getSkinPriceWithWear; without one it is: exact lookup, then the wear-retry
loop over commonWears (whose iterations are full recursive calls, hence
getSkinPriceWithWear), then the ★ fallback search with no wear. -/
def getSkinPrice (priceData : Option (List (String × PriceEntry)))
    (skinName : String) (wear : Option String)
    (stattrak souvenir : Bool) : Option PriceQuote :=
  match priceData with
  | none => none
  | some pm =>
    if skinName = "" then none
    else
      match wear with
      | some w => getSkinPriceWithWear pm skinName w stattrak souvenir
      | none =>
        let mhn := buildMarketHashName skinName none stattrak souvenir
        match List.lookup mhn pm with
        | some e => some (mkQuote e mhn false)
        | none =>
          match List.findSome?
              (fun w => getSkinPriceWithWear pm skinName w stattrak souvenir)
              commonWears with
          | some r => some r
          | none =>
            if strContains skinName "★" then
              match fallbackSearch (pm.map Prod.fst) skinName none stattrak with
              | some k => (List.lookup k pm).map (fun e => mkQuote e k true)
              | none => none
            else none

/-! ## Price formatter -/

/-- JS Math.round: round half toward positive infinity. -/
def jsRound (x : ℚ) : ℤ := ⌊x + 1/2⌋

/-- Decimal digits of a natural number padded on the left to width d. -/
def padZeros (d : ℕ) (n : ℕ) : String :=
  let s := Nat.repr n
  String.mk (List.replicate (d - s.length) '0') ++ s

/-- JS Number.prototype.toFixed(d) on an exact rational: the nearest
d-decimal representation, ties toward the larger value. -/
def toFixedQ (d : ℕ) (x : ℚ) : String :=
  let n : ℤ := ⌊x * (10 : ℚ) ^ d + 1/2⌋
  let sign := if n < 0 then "-" else ""
  let m := n.natAbs
  sign ++ Nat.repr (m / 10 ^ d) ++ "." ++ padZeros d (m % 10 ^ d)

/-- formatPrice from the price service; none models the null/undefined
argument. -/
def formatPrice (price : Option ℚ) : String :=
  match price with
  | none => "N/A"
  | some p =>
    if p = 0 then "Free"
    else if p < 1/100 then "<$0.01"
    else if p < 1 then "$" ++ toFixedQ 2 p
    else if p < 100 then "$" ++ toFixedQ 2 p
    else if p < 1000 then "$" ++ (jsRound p).repr
    else "$" ++ toFixedQ 1 (p / 1000) ++ "k"

/-! ## Price history service -/

/-- One element of a price-history series (the only field
calculatePriceChange reads is price). -/
structure PricePoint where
  price : ℚ
deriving DecidableEq

/-- The result object of calculatePriceChange. -/
structure PriceChange where
  change : ℚ
  percentage : ℚ
  trend : String
deriving DecidableEq

/-- calculatePriceChange from the price-history service: fewer than two
points give the neutral result; otherwise first versus last price, with the
percentage guarded by oldest > 0 and the trend classified with the ±5
threshold. -/
def calculatePriceChange (priceHistory : List PricePoint) : PriceChange :=
  if priceHistory.length < 2 then { change := 0, percentage := 0, trend := "stable" }
  else
    let oldest := (priceHistory.headD { price := 0 }).price
    let newest := (priceHistory.getLastD { price := 0 }).price
    let change := newest - oldest
    let percentage := if 0 < oldest then change / oldest * 100 else 0
    let trend := if 5 < percentage then "up"
                 else if percentage < -5 then "down"
                 else "stable"
    { change := change, percentage := percentage, trend := trend }

/-- MAX_HISTORY_DAYS from the price-history service. -/
def maxHistoryDays : ℤ := 30

/-- One stored snapshot: a timestamp (milliseconds) and the price map.  The
derived ISO date string of the source is display-only and never read back,
so it is not modelled. -/
structure PriceSnapshot where
  timestamp : ℤ
  prices : List (String × PriceEntry)
deriving DecidableEq

/-- The state transition performed by savePriceSnapshot: push the new
timestamped snapshot, then keep only entries strictly newer than the
30-day cutoff; the returned list is what is written back to storage and
what the very next read returns. -/
def savePriceSnapshot (now : ℤ) (history : List PriceSnapshot)
    (priceData : List (String × PriceEntry)) : List PriceSnapshot :=
  let history2 := history ++ [{ timestamp := now, prices := priceData }]
  let cutoffDate := now - maxHistoryDays * 24 * 60 * 60 * 1000
  history2.filter (fun snapshot => decide (cutoffDate < snapshot.timestamp))

/-! ## Category classifier (apiService) -/

/-- determineCategory from the API service: case-insensitive keyword match
in the fixed priority order Knife, Rifle, Pistol, SMG, Shotgun,
Machine Gun, Gloves, Other; the first matching category wins. -/
def determineCategory (weaponName : String) : String :=
  let name := strToLower weaponName
  if strContains name "knife" || strContains name "bayonet" ||
     strContains name "karambit" then "Knife"
  else if strContains name "ak-47" || strContains name "m4a4" ||
     strContains name "m4a1" || strContains name "aug" ||
     strContains name "sg 553" || strContains name "famas" ||
     strContains name "galil" || strContains name "awp" ||
     strContains name "ssg 08" || strContains name "scar-20" ||
     strContains name "g3sg1" then "Rifle"
  else if strContains name "glock" || strContains name "usp" ||
     strContains name "p2000" || strContains name "p250" ||
     strContains name "five-seven" || strContains name "tec-9" ||
     strContains name "cz75" || strContains name "desert eagle" ||
     strContains name "dual berettas" || strContains name "r8 revolver"
     then "Pistol"
  else if strContains name "mac-10" || strContains name "mp9" ||
     strContains name "mp7" || strContains name "mp5" ||
     strContains name "ump-45" || strContains name "p90" ||
     strContains name "pp-bizon" then "SMG"
  else if strContains name "nova" || strContains name "xm1014" ||
     strContains name "mag-7" || strContains name "sawed-off" then "Shotgun"
  else if strContains name "m249" || strContains name "negev" then "Machine Gun"
  else if strContains name "gloves" || strContains name "glove" ||
     strContains name "wraps" || strContains name "hand wraps" ||
     strContains name "handwraps" then "Gloves"
  else "Other"

/-! ## Trending processor (csfloat service)

The raw listing rows carry their Math.random() draws explicitly: randChange
is the draw consumed by calculatePriceChangePercent and randSpark the seven
draws consumed by generatePriceHistory, so the randomized source functions
become pure functions of their inputs. -/

/-- rarity field of a catalog skin record. -/
structure RarityInfo where
  name : String
  color : String

/-- The catalog metadata a listing is merged with (the fields the trending
processor reads; each may be absent on the JS side). -/
structure SkinData where
  image : Option String
  rarity : Option RarityInfo
  description : Option String
  categoryName : Option String
  weaponName : Option String

/-- One row of the CSFloat price list after the skin-catalog merge:
market hash name, integer-cent prices, quantity, the optional catalog
match, and the random draws the processing of this row consumes. -/
structure RawListing where
  market_hash_name : String
  min_price : ℤ
  max_price : Option ℤ
  qty : ℕ
  skinData : Option SkinData
  randChange : ℝ
  randSpark : List ℝ

/-- One processed trending item (the object literal built by
processTrendingListings). -/
structure TrendingItem where
  id : String
  name : String
  itemName : String
  wearName : String
  currentPrice : ℝ
  referencePrice : ℝ
  priceChange : ℝ
  priceChangeAbs : ℝ
  image : Option String
  watchers : ℕ
  volume : ℕ
  rarity : String
  rarityColor : String
  description : String
  type : String
  isStatTrak : Bool
  isSouvenir : Bool
  minPrice : ℝ
  maxPrice : ℝ
  priceSpread : ℝ
  category : String
  weapon : String
  priceHistory : List ℝ

/-- calculatePriceChangePercent from the csfloat service, with the
Math.random() draw passed in: a ±10 percent base move scaled up by the
volume boost min(qty/1000, 5)/5. -/
noncomputable def calculatePriceChangePercent (rand : ℝ)
    (minPrice maxPrice : ℝ) (qty : ℕ) : ℝ :=
  let baseChange := (rand - 0.5) * 20
  let volumeBoost := min ((qty : ℝ) / 1000) 5
  baseChange * (1 + volumeBoost / 5)

/-- generatePriceHistory from the csfloat service, with the per-point
Math.random() draws passed in. -/
noncomputable def generatePriceHistory (rands : List ℝ)
    (currentPrice priceChange : ℝ) (points : ℕ) : List ℝ :=
  let trend : ℝ := if 0 < priceChange then 1 else -1
  (List.range points).map (fun (i : ℕ) =>
    let progress : ℝ := (i : ℝ) / ((points : ℝ) - 1)
    let trendEffect := trend * progress * (|priceChange| / 100)
    let randomNoise := (rands.getD i 0 - 0.5) * 0.05
    currentPrice * (1 - trendEffect + randomNoise))

/-- The group captured by the regex for a trailing parenthesized suffix:
it matches when the string ends in a closing parenthesis and an opening
parenthesis occurs before it; the group runs from the first opening
parenthesis to the final character. -/
def trailingParenGroup (s : String) : Option String :=
  if strEndsWith s ")" && (s.data.contains '(') then
    some (String.mk (((s.data.dropLast).dropWhile (fun c => !(c = '('))).drop 1))
  else none

/-- The replacement removing a trailing parenthesized suffix together with
the whitespace run immediately before it (the regex used to build
itemName). -/
def stripTrailingParen (s : String) : String :=
  if strEndsWith s ")" && (s.data.contains '(') then
    String.mk (((s.data.takeWhile (fun c => !(c = '('))).reverse.dropWhile
      Char.isWhitespace).reverse)
  else s

/-- The per-row mapping step of processTrendingListings: rows without a
catalog match are dropped; the rest are turned into TrendingItem records. -/
noncomputable def processOne (item : RawListing) : Option TrendingItem :=
  match item.skinData with
  | none => none
  | some sd =>
    let currentPrice : ℝ := (item.min_price : ℝ) / 100
    let maxPrice : ℝ :=
      match item.max_price with
      | some m => if m = 0 then currentPrice else (m : ℝ) / 100
      | none => currentPrice
    let avgPrice := (currentPrice + maxPrice) / 2
    let priceSpread := (maxPrice - currentPrice) / currentPrice * 100
    let priceChange :=
      calculatePriceChangePercent item.randChange currentPrice maxPrice item.qty
    let priceHistory := generatePriceHistory item.randSpark avgPrice priceChange 7
    let marketHashName := item.market_hash_name
    some
      { id := marketHashName ++ "-" ++ Nat.repr item.qty
        name := marketHashName
        itemName := stripTrailingParen marketHashName
        wearName := (trailingParenGroup marketHashName).getD ""
        currentPrice := avgPrice
        referencePrice := currentPrice
        priceChange := priceChange
        priceChangeAbs := |priceChange|
        image := jsOrStrOpt sd.image
        watchers := item.qty / 10
        volume := item.qty
        rarity := jsOrStr (sd.rarity.map RarityInfo.name)
          (if strContains marketHashName "★" then "Extraordinary" else "Classified")
        rarityColor := jsOrStr (sd.rarity.map RarityInfo.color) "#eb4b4b"
        description := jsOrStr sd.description ""
        type := "listing"
        isStatTrak := strContains marketHashName "StatTrak™"
        isSouvenir := strContains marketHashName "Souvenir"
        minPrice := currentPrice
        maxPrice := maxPrice
        priceSpread := priceSpread
        category := jsOrStr sd.categoryName "Unknown"
        weapon := jsOrStr sd.weaponName ""
        priceHistory := priceHistory }

/-- The ranking score of the sort comparator in processTrendingListings. -/
noncomputable def trendingScore (t : TrendingItem) : ℝ :=
  t.priceChangeAbs * Real.log ((t.volume : ℝ) + 1)

/-- The ordering the sort comparator scoreB - scoreA establishes: a may
come before b when the score of b does not exceed the score of a. -/
noncomputable def scoreGE (a b : TrendingItem) : Prop :=
  trendingScore b ≤ trendingScore a

noncomputable instance : DecidableRel scoreGE := fun a b =>
  inferInstanceAs (Decidable (trendingScore b ≤ trendingScore a))

/-- The JS stable sort with comparator scoreB - scoreA: descending by
score, ties kept in input order (insertion sort is stable, and a stable
sort under a consistent comparator is the unique result the ECMAScript
specification allows). -/
noncomputable def sortByScore (l : List TrendingItem) : List TrendingItem :=
  l.insertionSort scoreGE

/-- processTrendingListings from the csfloat service: map each row, drop
rows without catalog data, keep positive current prices, sort by the
volume-and-volatility score descending. -/
noncomputable def processTrendingListings (priceListData : List RawListing) :
    List TrendingItem :=
  if priceListData.isEmpty then []
  else
    sortByScore (((priceListData.filterMap processOne).filter
      (fun t => decide (0 < t.currentPrice))))

/-- filterByCategory from the csfloat service: the All (or missing)
category returns the list unchanged; otherwise the switch on the category
keeps items by keyword tests on the lowercased display name, keeping
everything for categories the switch does not mention. -/
def filterByCategory (listings : List TrendingItem) (category : String) :
    List TrendingItem :=
  if category = "All" || category = "" then listings
  else
    listings.filter (fun item =>
      let name := strToLower item.name
      if category = "Knife" then
        strContains name "★" || strContains name "knife"
      else if category = "Gloves" then
        strContains name "gloves" || strContains name "wraps"
      else if category = "Rifle" then
        strContains name "ak-47" || strContains name "m4a4" ||
        strContains name "m4a1" || strContains name "awp" ||
        strContains name "aug" || strContains name "sg 553" ||
        strContains name "famas" || strContains name "galil"
      else if category = "Pistol" then
        strContains name "glock" || strContains name "usp" ||
        strContains name "p2000" || strContains name "p250" ||
        strContains name "desert eagle" || strContains name "deagle"
      else if category = "SMG" then
        strContains name "mp9" || strContains name "mac-10" ||
        strContains name "p90" || strContains name "ump"
      else true)

/-! ## Claim C3: filterByCategory versus the classifier rules

The claim as stated is false: the filter switch carries its own reduced
keyword lists (and keeps everything for categories it does not mention), so
the retained set differs from the set the classifier rules would assign. -/

/-- A processed listing whose display name lacks the ★ marker but contains
the classifier keyword bayonet. -/
noncomputable def bayonetListing : TrendingItem :=
  { id := "Bayonet | Doppler (Factory New)-3"
    name := "Bayonet | Doppler (Factory New)"
    itemName := "Bayonet | Doppler"
    wearName := "Factory New"
    currentPrice := 1
    referencePrice := 1
    priceChange := 0
    priceChangeAbs := 0
    image := none
    watchers := 0
    volume := 3
    rarity := "Covert"
    rarityColor := "#eb4b4b"
    description := ""
    type := "listing"
    isStatTrak := false
    isSouvenir := false
    minPrice := 1
    maxPrice := 1
    priceSpread := 0
    category := "Knives"
    weapon := "Bayonet"
    priceHistory := [] }

/-- Counterexample to C3 as stated: the classifier assigns the display name
Bayonet | Doppler (Factory New) to Knife, yet filterByCategory for Knife
drops the item, because the filter only tests for the ★ marker and the word
knife. -/
theorem filterByCategory_counterexample :
    filterByCategory [bayonetListing] "Knife" = []
    ∧ determineCategory bayonetListing.name = "Knife" := by
  constructor
  · rfl
  · rfl

/-- Modelled from the amended claim wording: the keyword rules
filterByCategory actually applies, as a standalone predicate on the display
name. -/
def filterKeepSpec (category : String) (displayName : String) : Bool :=
  let name := strToLower displayName
  if category = "Knife" then
    strContains name "★" || strContains name "knife"
  else if category = "Gloves" then
    strContains name "gloves" || strContains name "wraps"
  else if category = "Rifle" then
    strContains name "ak-47" || strContains name "m4a4" ||
    strContains name "m4a1" || strContains name "awp" ||
    strContains name "aug" || strContains name "sg 553" ||
    strContains name "famas" || strContains name "galil"
  else if category = "Pistol" then
    strContains name "glock" || strContains name "usp" ||
    strContains name "p2000" || strContains name "p250" ||
    strContains name "desert eagle" || strContains name "deagle"
  else if category = "SMG" then
    strContains name "mp9" || strContains name "mac-10" ||
    strContains name "p90" || strContains name "ump"
  else true

/-- Claim C3 amended: filterByCategory retains exactly the items whose
display name passes its own reduced keyword lists — ★ or knife for Knife,
gloves or wraps for Gloves, eight rifle keywords, six pistol keywords,
four SMG keywords — and keeps every item for All, the empty category and
any category its switch does not mention (so, for example, the Shotgun
restriction keeps everything).  These rules are not the classifier rules
of determineCategory. -/
theorem filterByCategory_keyword_rules :
    (∀ (listings : List TrendingItem) (category : String) (item : TrendingItem),
      item ∈ filterByCategory listings category ↔
        item ∈ listings ∧ filterKeepSpec category item.name = true)
    ∧ (∀ listings : List TrendingItem, filterByCategory listings "Shotgun" = listings) := by
  constructor
  · intro listings category item
    unfold filterByCategory
    by_cases hAll : category = "All"
    · subst hAll
      simp [filterKeepSpec]
    · by_cases hEmpty : category = ""
      · subst hEmpty
        simp [filterKeepSpec]
      · rw [if_neg (by simp [hAll, hEmpty])]
        rw [List.mem_filter]
        rfl
  · intro listings
    unfold filterByCategory
    rw [if_neg (by simp)]
    rw [List.filter_eq_self.mpr]
    intro a _
    rfl

/-- Witness exercising the amended C3 characterisation at a concrete knife
item retained by the Knife filter. -/
noncomputable def karambitListing : TrendingItem :=
  { bayonetListing with
    id := "★ Karambit | Fade (Factory New)-2"
    name := "★ Karambit | Fade (Factory New)"
    itemName := "★ Karambit | Fade"
    volume := 2
    weapon := "Karambit" }

/-- Witness for the amended C3: membership of a ★ item under the Knife
filter follows from the characterisation. -/
theorem filterByCategory_keyword_rules_witness :
    karambitListing ∈ filterByCategory [karambitListing] "Knife" :=
  (filterByCategory_keyword_rules.1 [karambitListing] "Knife" karambitListing).mpr
    ⟨by simp, by rfl⟩

/-! ## Claim C4: knife keywords dominate the classifier -/

/-- Claim C4: every weapon name containing the keyword knife, bayonet or
karambit in any letter case is classified Knife by determineCategory, no
matter what later-priority keywords the name also contains, because the
knife check is evaluated first. -/
theorem determineCategory_knife_keywords (s : String)
    (h : strContains (strToLower s) "knife" = true ∨
         strContains (strToLower s) "bayonet" = true ∨
         strContains (strToLower s) "karambit" = true) :
    determineCategory s = "Knife" := by
  unfold determineCategory
  rcases h with h | h | h <;> simp [h]

/-- Witness for C4 at the crafted name AK-47 Knife, which contains both a
knife keyword and the rifle keyword ak-47 and still classifies Knife. -/
theorem determineCategory_knife_keywords_witness :
    strContains (strToLower "AK-47 Knife") "knife" = true ∧
    strContains (strToLower "AK-47 Knife") "ak-47" = true ∧
    determineCategory "AK-47 Knife" = "Knife" :=
  ⟨by decide, by decide,
    determineCategory_knife_keywords "AK-47 Knife" (Or.inl (by decide))⟩

/-! ## Claim C5: calculatePriceChange first-versus-last behaviour -/

/-- Claim C5: with fewer than two points calculatePriceChange returns the
neutral result; with at least two it compares first and last price, so
the two-point series 10, 12 gives percentage 20 and trend up, the series
10, 10.2 gives percentage 2 and trend stable, and any percentage of
magnitude at most 5 classifies as stable. -/
theorem calculatePriceChange_first_last :
    (∀ h : List PricePoint, h.length < 2 →
      calculatePriceChange h = { change := 0, percentage := 0, trend := "stable" })
    ∧ calculatePriceChange [{ price := 10 }, { price := 12 }]
        = { change := 2, percentage := 20, trend := "up" }
    ∧ (calculatePriceChange [{ price := 10 }, { price := 10.2 }]).percentage = 2
    ∧ (calculatePriceChange [{ price := 10 }, { price := 10.2 }]).trend = "stable"
    ∧ (∀ h : List PricePoint, 2 ≤ h.length →
        (calculatePriceChange h).change
          = (h.getLastD { price := 0 }).price - (h.headD { price := 0 }).price)
    ∧ (∀ h : List PricePoint, |(calculatePriceChange h).percentage| ≤ 5 →
        (calculatePriceChange h).trend = "stable") := by
  refine ⟨?_, by unfold calculatePriceChange; norm_num,
    by unfold calculatePriceChange; norm_num,
    by unfold calculatePriceChange; norm_num, ?_, ?_⟩
  · intro h hlen
    unfold calculatePriceChange
    rw [if_pos hlen]
  · intro h hlen
    unfold calculatePriceChange
    rw [if_neg (by omega)]
  · intro h hle
    unfold calculatePriceChange at hle ⊢
    by_cases hlen : h.length < 2
    · rw [if_pos hlen]
    · rw [if_neg hlen] at hle ⊢
      simp only at hle ⊢
      split_ifs at hle ⊢ <;>
        first
        | rfl
        | (rw [abs_le] at hle; linarith [hle.1, hle.2])

/-- Witness for C5: the hypothesis-bearing conjuncts applied at concrete
series. -/
theorem calculatePriceChange_first_last_witness :
    calculatePriceChange [{ price := 7 }]
      = { change := 0, percentage := 0, trend := "stable" }
    ∧ (calculatePriceChange [({ price := 10 } : PricePoint), { price := 10.2 }]).trend
        = "stable"
    ∧ (calculatePriceChange [({ price := 10 } : PricePoint), { price := 12 }]).change
        = (([({ price := 10 } : PricePoint), { price := 12 }]).getLastD
            { price := 0 }).price
          - (([({ price := 10 } : PricePoint), { price := 12 }]).headD
            { price := 0 }).price :=
  ⟨calculatePriceChange_first_last.1 [{ price := 7 }] (by decide),
   calculatePriceChange_first_last.2.2.2.2.2 [{ price := 10 }, { price := 10.2 }]
     (by unfold calculatePriceChange; norm_num),
   calculatePriceChange_first_last.2.2.2.2.1 [{ price := 10 }, { price := 12 }]
     (by decide)⟩

/-! ## Claim C6: snapshot log retention -/

/-- Claim C6: the state savePriceSnapshot writes back always contains the
newly appended timestamped entry and contains no entry whose timestamp lies
at or before the 30-day cutoff, so entries older than the retention window
are gone from the very next read. -/
theorem savePriceSnapshot_retention (now : ℤ) (history : List PriceSnapshot)
    (priceData : List (String × PriceEntry)) :
    ({ timestamp := now, prices := priceData } : PriceSnapshot)
        ∈ savePriceSnapshot now history priceData
    ∧ ∀ s ∈ savePriceSnapshot now history priceData,
        now - maxHistoryDays * 24 * 60 * 60 * 1000 < s.timestamp := by
  constructor
  · unfold savePriceSnapshot
    rw [List.mem_filter]
    refine ⟨by simp, ?_⟩
    simp only [decide_eq_true_eq, maxHistoryDays]
    omega
  · intro s hs
    unfold savePriceSnapshot at hs
    rw [List.mem_filter] at hs
    simpa using hs.2

/-- Witness for C6: a log holding one far-expired entry; the fresh entry is
present in the written state and satisfies the cutoff bound. -/
theorem savePriceSnapshot_retention_witness :
    ({ timestamp := 5, prices := [] } : PriceSnapshot)
        ∈ savePriceSnapshot 5 [{ timestamp := -9999999999, prices := [] }] []
    ∧ (5 : ℤ) - maxHistoryDays * 24 * 60 * 60 * 1000
        < ({ timestamp := 5, prices := [] } : PriceSnapshot).timestamp :=
  ⟨(savePriceSnapshot_retention 5 [{ timestamp := -9999999999, prices := [] }] []).1,
   (savePriceSnapshot_retention 5 [{ timestamp := -9999999999, prices := [] }] []).2
     _ (savePriceSnapshot_retention 5 [{ timestamp := -9999999999, prices := [] }] []).1⟩

/-! ## Claim C1: the knife/glove fallback is flagged approximate -/

/-- Claim C1: for a ★-marked skin name on which the exact lookup misses and
(when no wear was given) every wear-retry iteration comes back empty, a
successful fallback key search makes getSkinPrice return the matched key's
quote with isApproximate true and the matched key reported in
marketHashName. -/
theorem getSkinPrice_star_fallback_approximate
    (pm : List (String × PriceEntry)) (skinName : String) (wear : Option String)
    (st sv : Bool) (k : String) (e : PriceEntry)
    (hstar : strContains skinName "★" = true)
    (hmiss : List.lookup (buildMarketHashName skinName wear st sv) pm = none)
    (hretry : wear = none →
      ∀ w ∈ commonWears, getSkinPriceWithWear pm skinName w st sv = none)
    (hfb : fallbackSearch (pm.map Prod.fst) skinName wear st = some k)
    (hk : List.lookup k pm = some e) :
    getSkinPrice (some pm) skinName wear st sv = some (mkQuote e k true)
    ∧ (mkQuote e k true).isApproximate = true
    ∧ (mkQuote e k true).marketHashName = k := by
  refine ⟨?_, rfl, rfl⟩
  have hne : skinName ≠ "" := by
    intro hemp
    rw [hemp] at hstar
    exact absurd hstar (by decide)
  cases wear with
  | some w =>
    simp only [getSkinPrice, if_neg hne]
    unfold getSkinPriceWithWear
    simp only [hmiss, hstar, if_true, hfb, hk]
    rfl
  | none =>
    have hloop :
        List.findSome?
          (fun w => getSkinPriceWithWear pm skinName w st sv) commonWears = none :=
      List.findSome?_eq_none_iff.mpr (hretry rfl)
    simp only [getSkinPrice, if_neg hne, hmiss, hloop, hstar, if_true, hfb, hk]
    rfl

/-- The price entry of the single Doppler phase key used as the C1
witness. -/
def dopplerEntry : PriceEntry :=
  { price := some 100, min := some 95, avg := some 100, max := some 110,
    qty := some 7 }

/-- A price map containing only the Phase 2 key and no bare Doppler key. -/
def dopplerMap : List (String × PriceEntry) :=
  [("★ Bayonet | Doppler (Phase 2)", dopplerEntry)]

/-- Witness for C1: the spec's own example; resolving the bare
★ Bayonet | Doppler against a map holding only the Phase 2 key returns the
Phase 2 quote tagged approximate. -/
theorem getSkinPrice_star_fallback_approximate_witness :
    strContains "★ Bayonet | Doppler" "★" = true
    ∧ List.lookup (buildMarketHashName "★ Bayonet | Doppler" none false false)
        dopplerMap = none
    ∧ fallbackSearch (dopplerMap.map Prod.fst) "★ Bayonet | Doppler" none false
        = some "★ Bayonet | Doppler (Phase 2)"
    ∧ getSkinPrice (some dopplerMap) "★ Bayonet | Doppler" none false false
        = some (mkQuote dopplerEntry "★ Bayonet | Doppler (Phase 2)" true)
    ∧ (mkQuote dopplerEntry "★ Bayonet | Doppler (Phase 2)" true).isApproximate
        = true :=
  ⟨by decide, by decide, by decide,
   (getSkinPrice_star_fallback_approximate dopplerMap "★ Bayonet | Doppler" none
      false false "★ Bayonet | Doppler (Phase 2)" dopplerEntry (by decide)
      (by decide) (fun _ => by decide) (by decide) (by decide)).1,
   (getSkinPrice_star_fallback_approximate dopplerMap "★ Bayonet | Doppler" none
      false false "★ Bayonet | Doppler (Phase 2)" dopplerEntry (by decide)
      (by decide) (fun _ => by decide) (by decide) (by decide)).2.1⟩

/-! ## Claim C2: the wear-retry loop

The claim as stated is false: each retry iteration is a full recursive
getSkinPrice call, so for ★-marked names an iteration can come back with an
approximate fallback match for an early wear before a later wear would have
hit exactly. -/

/-- The Phase 1 Field-Tested entry of the C2 counterexample map. -/
def gammaFTEntry : PriceEntry :=
  { price := some 50, min := none, avg := some 50, max := none, qty := none }

/-- The exact Minimal Wear entry of the C2 counterexample map. -/
def gammaMWEntry : PriceEntry :=
  { price := some 60, min := none, avg := some 60, max := none, qty := none }

/-- The C2 counterexample price map: a phase-suffixed Field-Tested key and
an exact Minimal Wear key. -/
def gammaMap : List (String × PriceEntry) :=
  [("★ Karambit | Gamma Doppler (Phase 1) (Field-Tested)", gammaFTEntry),
   ("★ Karambit | Gamma Doppler (Minimal Wear)", gammaMWEntry)]

/-- Counterexample to C2 as stated: with no wear given, an exact
Minimal Wear key present, and only a phase-suffixed Field-Tested key
besides, getSkinPrice returns the Field-Tested phase key tagged
isApproximate true — not the quote of the first wear with an exact hit
tagged exact. -/
theorem getSkinPrice_wear_retry_counterexample :
    getSkinPrice (some gammaMap) "★ Karambit | Gamma Doppler" none false false
      = some (mkQuote gammaFTEntry
          "★ Karambit | Gamma Doppler (Phase 1) (Field-Tested)" true)
    ∧ (mkQuote gammaFTEntry
        "★ Karambit | Gamma Doppler (Phase 1) (Field-Tested)" true).isApproximate
        = true
    ∧ List.lookup
        (buildMarketHashName "★ Karambit | Gamma Doppler" (some "Minimal Wear")
          false false) gammaMap = some gammaMWEntry :=
  ⟨by decide, rfl, by decide⟩

/-- Claim C2 amended: restricted to non-empty skin names without the ★
marker (whose lookups never enter the fallback search), a missing wear and
a missed exact lookup make getSkinPrice scan the five canonical wears in
the fixed source order and return the quote of the first wear whose
constructed identifier is in the map, tagged exact; the quotes produced
this way always carry isApproximate false. -/
theorem getSkinPrice_wear_retry_order
    (pm : List (String × PriceEntry)) (skinName : String) (st sv : Bool)
    (hne : skinName ≠ "")
    (hstar : strContains skinName "★" = false)
    (hmiss : List.lookup (buildMarketHashName skinName none st sv) pm = none) :
    getSkinPrice (some pm) skinName none st sv =
      List.findSome? (fun w =>
        (List.lookup (buildMarketHashName skinName (some w) st sv) pm).map
          (fun e => mkQuote e (buildMarketHashName skinName (some w) st sv) false))
        commonWears
    ∧ commonWears = ["Field-Tested", "Minimal Wear", "Factory New", "Well-Worn",
        "Battle-Scarred"]
    ∧ ∀ (e : PriceEntry) (m : String), (mkQuote e m false).isApproximate = false := by
  refine ⟨?_, rfl, fun _ _ => rfl⟩
  have hw : ∀ w : String, getSkinPriceWithWear pm skinName w st sv =
      (List.lookup (buildMarketHashName skinName (some w) st sv) pm).map
        (fun e => mkQuote e (buildMarketHashName skinName (some w) st sv) false) := by
    intro w
    unfold getSkinPriceWithWear
    cases hl : List.lookup (buildMarketHashName skinName (some w) st sv) pm with
    | some e => simp [hl]
    | none => simp [hl, hstar]
  have hfun : (fun w => getSkinPriceWithWear pm skinName w st sv) =
      (fun w =>
        (List.lookup (buildMarketHashName skinName (some w) st sv) pm).map
          (fun e => mkQuote e (buildMarketHashName skinName (some w) st sv) false)) :=
    funext hw
  simp only [getSkinPrice, if_neg hne, hmiss, hfun]
  cases hf : List.findSome? (fun w =>
      (List.lookup (buildMarketHashName skinName (some w) st sv) pm).map
        (fun e => mkQuote e (buildMarketHashName skinName (some w) st sv) false))
      commonWears with
  | some r => simp
  | none => simp [hstar]

/-- The single Minimal Wear entry of the C2 witness map. -/
def redlineEntry : PriceEntry :=
  { price := some 12, min := some 11, avg := some 12, max := some 13,
    qty := some 100 }

/-- The C2 witness price map: only a Minimal Wear key. -/
def redlineMap : List (String × PriceEntry) :=
  [("AK-47 | Redline (Minimal Wear)", redlineEntry)]

/-- Witness for the amended C2: resolving AK-47 | Redline without a wear
against a map holding only the Minimal Wear key walks the retry order and
returns the Minimal Wear quote tagged exact. -/
theorem getSkinPrice_wear_retry_order_witness :
    getSkinPrice (some redlineMap) "AK-47 | Redline" none false false =
      List.findSome? (fun w =>
        (List.lookup (buildMarketHashName "AK-47 | Redline" (some w) false false)
          redlineMap).map
          (fun e => mkQuote e
            (buildMarketHashName "AK-47 | Redline" (some w) false false) false))
        commonWears
    ∧ getSkinPrice (some redlineMap) "AK-47 | Redline" none false false
        = some (mkQuote redlineEntry "AK-47 | Redline (Minimal Wear)" false) :=
  ⟨(getSkinPrice_wear_retry_order redlineMap "AK-47 | Redline" false false
      (by decide) (by decide) (by decide)).1,
   by decide⟩

/-! ## Claim C8: malformed input short-circuits to none -/

/-- Claim C8: for every wear, StatTrak and Souvenir argument, a missing
price map or an empty skin name makes getSkinPrice return none
immediately; being a total Lean function, the embedding also witnesses
that no exception can escape. -/
theorem getSkinPrice_malformed_input :
    (∀ (skinName : String) (wear : Option String) (st sv : Bool),
      getSkinPrice none skinName wear st sv = none)
    ∧ (∀ (pm : List (String × PriceEntry)) (wear : Option String) (st sv : Bool),
      getSkinPrice (some pm) "" wear st sv = none) :=
  ⟨fun _ _ _ _ => rfl, fun _ _ _ _ => by simp [getSkinPrice]⟩

/-! ## Claim C9: zero first price never divides -/

/-- Claim C9: on a series of at least two points whose first price is 0,
the oldest-price-positive guard forces percentage 0 and trend stable,
whatever the last price is. -/
theorem calculatePriceChange_zero_oldest (h : List PricePoint)
    (hlen : 2 ≤ h.length) (h0 : (h.headD { price := 0 }).price = 0) :
    (calculatePriceChange h).percentage = 0
    ∧ (calculatePriceChange h).trend = "stable" := by
  unfold calculatePriceChange
  rw [if_neg (by omega)]
  simp only [h0]
  norm_num

/-- Witness for C9 on the concrete series 0, 5. -/
theorem calculatePriceChange_zero_oldest_witness :
    (calculatePriceChange [{ price := 0 }, { price := 5 }]).percentage = 0
    ∧ (calculatePriceChange [{ price := 0 }, { price := 5 }]).trend = "stable" :=
  calculatePriceChange_zero_oldest [{ price := 0 }, { price := 5 }]
    (by decide) (by decide)

/-! ## Claim C10: negative prices format as the sub-cent string -/

/-- Claim C10: every strictly negative price is neither the null nor the
zero case and satisfies the sub-cent tier, so formatPrice renders it as
the sub-cent string and never as a negative dollar amount. -/
theorem formatPrice_negative (p : ℚ) (h : p < 0) :
    formatPrice (some p) = "<$0.01" := by
  simp only [formatPrice]
  rw [if_neg (ne_of_lt h), if_pos (h.trans (by norm_num))]

/-- Witness for C10 at price -1. -/
theorem formatPrice_negative_witness :
    formatPrice (some (-1)) = "<$0.01" :=
  formatPrice_negative (-1) (by norm_num)

/-! ## Claim C7: the trending ranking

The comparator relation is total and transitive, so the stable sort
delivers a list sorted by descending score.  The monotonicity consequence
claimed for equal percentage changes holds only when that shared
percentage change is nonzero: at zero both scores vanish and the stable
sort keeps the input order, whatever the volumes are. -/

instance : IsTotal TrendingItem scoreGE :=
  ⟨fun a b => le_total (trendingScore b) (trendingScore a)⟩

instance : IsTrans TrendingItem scoreGE :=
  ⟨fun _ _ _ hab hbc => le_trans hbc hab⟩

/-- Catalog stub shared by the concrete C7 listings. -/
def plainSkinData : SkinData :=
  { image := some "img", rarity := none, description := none,
    categoryName := none, weaponName := none }

/-- C7 counterexample input, low volume: the Math.random draw 0.5 makes
the estimated percentage change exactly zero. -/
noncomputable def tieLowListing : RawListing :=
  { market_hash_name := "Glock-18 | Fade (Minimal Wear)"
    min_price := 100, max_price := none, qty := 5,
    skinData := some plainSkinData, randChange := 0.5, randSpark := [] }

/-- C7 counterexample input, high volume, same zero percentage change. -/
noncomputable def tieHighListing : RawListing :=
  { market_hash_name := "USP-S | Kill Confirmed (Minimal Wear)"
    min_price := 100, max_price := none, qty := 10,
    skinData := some plainSkinData, randChange := 0.5, randSpark := [] }

/-- Counterexample to C7 as stated: two items with equal percentage-change
magnitude (both zero) and different volumes keep their input order — the
lower-volume item stays ranked first, because both scores are zero and the
sort is stable. -/
theorem processTrendingListings_tie_counterexample :
    (processTrendingListings [tieLowListing, tieHighListing]).map
        TrendingItem.volume = [5, 10]
    ∧ (processTrendingListings [tieLowListing, tieHighListing]).map
        TrendingItem.priceChangeAbs = [0, 0] := by
  constructor <;>
  · simp only [processTrendingListings, List.isEmpty_cons, Bool.false_eq_true,
      if_false, List.filterMap_cons, List.filterMap_nil, processOne,
      tieLowListing, tieHighListing, plainSkinData, List.filter_cons,
      List.filter_nil, sortByScore, List.insertionSort, List.orderedInsert]
    norm_num [calculatePriceChangePercent]
    simp only [show strContains "Glock-18 | Fade (Minimal Wear)" "★" = false from
        by decide,
      show strContains "USP-S | Kill Confirmed (Minimal Wear)" "★" = false from
        by decide, Bool.false_eq_true, if_false]
    split
    · simp
    · next h =>
        exfalso
        apply h
        simp only [scoreGE, trendingScore]
        norm_num

/-- C7 input with zero volume and Math.random draw 0.8: estimated change
(0.8 - 0.5) * 20 * (1 + min(0/1000, 5)/5) = 6. -/
noncomputable def lowVolListing : RawListing :=
  { market_hash_name := "AK-47 | Redline (Field-Tested)"
    min_price := 100, max_price := none, qty := 0,
    skinData := some plainSkinData, randChange := 0.8, randSpark := [] }

/-- C7 input with volume 1000 and Math.random draw 0.75: estimated change
(0.75 - 0.5) * 20 * (1 + min(1000/1000, 5)/5) = 6, equal to the low-volume
item's. -/
noncomputable def highVolListing : RawListing :=
  { market_hash_name := "AWP | Asiimov (Field-Tested)"
    min_price := 100, max_price := none, qty := 1000,
    skinData := some plainSkinData, randChange := 0.75, randSpark := [] }

/-- Claim C7 amended: the trending output is sorted by the score
percentage-change magnitude times log(volume + 1) in descending order, and
for two items with equal NONZERO percentage-change magnitude the score is
strictly larger at the larger volume — so the higher-volume item is ranked
first; when the shared magnitude is zero both scores vanish and the stable
sort keeps the input order instead.  The concrete run ranks the
volume-1000 item above the volume-0 item at equal magnitude 6. -/
theorem processTrendingListings_score_ranking :
    (∀ priceListData : List RawListing,
      List.Sorted scoreGE (processTrendingListings priceListData))
    ∧ (∀ a b : TrendingItem, a.priceChangeAbs = b.priceChangeAbs →
        0 < a.priceChangeAbs → a.volume < b.volume →
        trendingScore a < trendingScore b)
    ∧ (processTrendingListings [lowVolListing, highVolListing]).map
        TrendingItem.volume = [1000, 0]
    ∧ (processTrendingListings [lowVolListing, highVolListing]).map
        TrendingItem.priceChangeAbs = [6, 6] := by
  refine ⟨?_, ?_, ?_, ?_⟩
  · intro priceListData
    unfold processTrendingListings
    split
    · exact List.sorted_nil
    · exact List.sorted_insertionSort scoreGE _
  · intro a b heq hpos hvol
    unfold trendingScore
    rw [← heq]
    have hcast : ((a.volume : ℝ)) + 1 < ((b.volume : ℝ)) + 1 := by
      have : (a.volume : ℝ) < (b.volume : ℝ) := by exact_mod_cast hvol
      linarith
    exact mul_lt_mul_of_pos_left
      (Real.log_lt_log (by positivity) hcast) hpos
  · simp only [processTrendingListings, List.isEmpty_cons, Bool.false_eq_true,
      if_false, List.filterMap_cons, List.filterMap_nil, processOne,
      lowVolListing, highVolListing, plainSkinData, List.filter_cons,
      List.filter_nil, sortByScore, List.insertionSort, List.orderedInsert]
    norm_num [calculatePriceChangePercent]
    simp only [show strContains "AK-47 | Redline (Field-Tested)" "★" = false from
        by decide,
      show strContains "AWP | Asiimov (Field-Tested)" "★" = false from
        by decide, Bool.false_eq_true, if_false]
    split
    · next h =>
        exfalso
        simp only [scoreGE, trendingScore] at h
        norm_num [Real.log_one] at h
        have hlog : 0 < Real.log 1001 := Real.log_pos (by norm_num)
        linarith
    · simp
  · simp only [processTrendingListings, List.isEmpty_cons, Bool.false_eq_true,
      if_false, List.filterMap_cons, List.filterMap_nil, processOne,
      lowVolListing, highVolListing, plainSkinData, List.filter_cons,
      List.filter_nil, sortByScore, List.insertionSort, List.orderedInsert]
    norm_num [calculatePriceChangePercent]
    simp only [show strContains "AK-47 | Redline (Field-Tested)" "★" = false from
        by decide,
      show strContains "AWP | Asiimov (Field-Tested)" "★" = false from
        by decide, Bool.false_eq_true, if_false]
    split
    · next h =>
        exfalso
        simp only [scoreGE, trendingScore] at h
        norm_num [Real.log_one] at h
        have hlog : 0 < Real.log 1001 := Real.log_pos (by norm_num)
        linarith
    · simp

/-- Concrete lower-volume item for the C7 witness. -/
noncomputable def scoreWitnessLow : TrendingItem :=
  { bayonetListing with volume := 1, priceChangeAbs := 3 }

/-- Concrete higher-volume item with the same nonzero percentage-change
magnitude for the C7 witness. -/
noncomputable def scoreWitnessHigh : TrendingItem :=
  { bayonetListing with volume := 2, priceChangeAbs := 3 }

/-- Witness for the amended C7: the strict score monotonicity applied at
equal magnitude 3 and volumes 1 versus 2. -/
theorem processTrendingListings_score_ranking_witness :
    scoreWitnessLow.priceChangeAbs = scoreWitnessHigh.priceChangeAbs
    ∧ 0 < scoreWitnessLow.priceChangeAbs
    ∧ scoreWitnessLow.volume < scoreWitnessHigh.volume
    ∧ trendingScore scoreWitnessLow < trendingScore scoreWitnessHigh :=
  ⟨rfl, by norm_num [scoreWitnessLow, bayonetListing],
   by norm_num [scoreWitnessLow, scoreWitnessHigh],
   processTrendingListings_score_ranking.2.1 scoreWitnessLow scoreWitnessHigh rfl
     (by norm_num [scoreWitnessLow, bayonetListing])
     (by norm_num [scoreWitnessLow, scoreWitnessHigh])⟩

end CS2Market
